import Mathlib

/-!
Verification development for the Reftab_Extract repository (src/extact.py).

The single source file is a command-line extraction utility: it resolves
configuration from environment variables (`build_headers`, start of `main`),
pages through a REST list endpoint (`get_paginated`), writes the collected
records to CSV (`write_csv`), and maps failures to exit codes (`main`).

The embedding below models Python JSON values as the inductive `JVal`,
Python truthiness as `jtruthy`, and each source function as a Lean
function of the same name.  Effects are made explicit:

* the HTTP server is a finite script of responses consumed one per request
  (the Python `while True` loop becomes structural recursion on the script;
  running out of script models the loop still wanting to continue, result
  `FetchResult.exhausted`);
* the pager returns a trace: the `offset` query parameter of every request
  issued, the number of `time.sleep` calls performed in the 5xx retry
  branch, and the outcome (`limit` and the caller's params are attached
  unchanged to every request, so only the offset is recorded);
* `main` is parameterized by the outcome of the fetch and of the CSV file
  write, and returns the exit code, the lines printed to stdout, the CSV
  content written (if any), and whether an uncaught exception escaped
  (Python prints a traceback to stderr and exits with code 1 in that case).

Sleep durations never influence results, so they are not modelled; only the
retry-branch sleep *calls* are counted.
-/

/-- Python/JSON values as received from `resp.json()` and stored in records.
Numbers are modelled as integers (no claim exercises floats). -/
inductive JVal where
  | null
  | bool (b : Bool)
  | num (n : Int)
  | str (s : String)
  | arr (xs : List JVal)
  | obj (kvs : List (String × JVal))

/-- Python truthiness (`bool(x)`) of a JSON value: `None`, `False`, `0`,
`""`, `[]` and `{}` are falsy, everything else truthy. -/
def jtruthy : JVal → Bool
  | .null => false
  | .bool b => b
  | .num n => !(n == 0)
  | .str s => !s.isEmpty
  | .arr xs => !xs.isEmpty
  | .obj kvs => !kvs.isEmpty

/-- Python `a or b` on JSON values: `a` if truthy, else `b`. -/
def pyOr (a b : JVal) : JVal := if jtruthy a then a else b

/-- Escape one character for a JSON string literal, as `json.dumps` does.
Control-character and non-ASCII escaping is omitted: no claim exercises it. -/
def json_escape_char (c : Char) : String :=
  if c = '"' then "\\\"" else if c = '\\' then "\\\\" else String.mk [c]

/-- Escape a string for inclusion in a JSON string literal. -/
def json_escape (s : String) : String :=
  String.join (s.data.map json_escape_char)

mutual

/-- Model of `json.dumps` with the default separators `", "` and `": "`,
as used by the source for nested CSV cells and for every stdout line. -/
def json_dumps : JVal → String
  | .null => "null"
  | .bool true => "true"
  | .bool false => "false"
  | .num n => toString n
  | .str s => "\"" ++ json_escape s ++ "\""
  | .arr xs => "[" ++ String.intercalate ", " (json_dumps_list xs) ++ "]"
  | .obj kvs => "\x7b" ++ String.intercalate ", " (json_dumps_obj kvs) ++ "\x7d"

/-- Serialize each element of a JSON array. -/
def json_dumps_list : List JVal → List String
  | [] => []
  | v :: vs => json_dumps v :: json_dumps_list vs

/-- Serialize each `key: value` entry of a JSON object. -/
def json_dumps_obj : List (String × JVal) → List String
  | [] => []
  | (k, v) :: kvs => ("\"" ++ json_escape k ++ "\": " ++ json_dumps v) :: json_dumps_obj kvs

end

/-! ## The HTTP pager (`get_paginated`, source lines 30-56) -/

/-- One HTTP response of the scripted server: status code and parsed JSON
body (`JVal.null` models a body of JSON `null`, i.e. Python `None`). -/
structure HResp where
  status : Nat
  body : JVal

/-- Batch extraction, source lines 43-47:
`data = resp.json() or []`; if `data` is a dict containing `"results"`,
the batch is `data.get("results") or []`; else the batch is `data` if it
is a list and `[]` otherwise. -/
def batch_of_body (body : JVal) : JVal :=
  let data := pyOr body (.arr [])
  match data with
  | .obj kvs =>
      match kvs.lookup "results" with
      | some v => pyOr v (.arr [])
      | none => .arr []
  | .arr xs => .arr xs
  | _ => .arr []

/-- Iterating over a batch, as `out.extend(batch)` does: a list yields its
elements, a string its characters, a dict its keys; a (truthy) number or
boolean is not iterable and raises `TypeError`. -/
def batch_items : JVal → Option (List JVal)
  | .arr xs => some xs
  | .str s => some (s.data.map fun c => JVal.str (String.mk [c]))
  | .obj kvs => some (kvs.map fun kv => JVal.str kv.1)
  | .null => none
  | .bool _ => none
  | .num _ => none

/-- Outcome of a pager run over a finite response script. -/
inductive FetchResult where
  | ok (records : List JVal)
  | httpError (status : Nat)
  | typeError
  | exhausted

/-- Trace of one pager run: the `offset` query parameter of each request in
order, the number of sleeps performed in the 5xx retry branch, and the
outcome. -/
structure PagerTrace where
  offsets : List Nat
  retrySleeps : Nat
  result : FetchResult

/-- The body of the `while True` loop of `get_paginated`, as recursion on
the remaining response script.  `offset` and `out` are the loop's mutable
state (source lines 31-32); each iteration consumes the next scripted
response.  Status `>= 500`: sleep and retry the same offset (lines 39-41);
other statuses `>= 400`: `raise_for_status` raises `HTTPError` (line 42);
empty batch: stop without appending (lines 48-49); short batch: append and
stop (lines 50-52); full batch: append and continue at `offset + limit`
(lines 53-55). -/
def get_paginated_go (limit : Nat) (offset : Nat) (out : List JVal) :
    List HResp → PagerTrace
  | [] => ⟨[], 0, .exhausted⟩
  | r :: rest =>
      if 500 ≤ r.status then
        let t := get_paginated_go limit offset out rest
        ⟨offset :: t.offsets, t.retrySleeps + 1, t.result⟩
      else if 400 ≤ r.status then
        ⟨[offset], 0, .httpError r.status⟩
      else
        let batch := batch_of_body r.body
        if jtruthy batch = false then
          ⟨[offset], 0, .ok out⟩
        else
          match batch_items batch with
          | none => ⟨[offset], 0, .typeError⟩
          | some items =>
              if items.length < limit then
                ⟨[offset], 0, .ok (out ++ items)⟩
              else
                let t := get_paginated_go limit (offset + limit) (out ++ items) rest
                ⟨offset :: t.offsets, t.retrySleeps, t.result⟩

/-- `get_paginated`: run the pagination loop from offset 0 with an empty
accumulator against a scripted server. -/
def get_paginated (limit : Nat) (script : List HResp) : PagerTrace :=
  get_paginated_go limit 0 [] script

/-! ## The CSV writer (`write_csv`, source lines 70-80) -/

/-- A record: one Python dict as fetched from the API (keys are unique in a
Python dict; insertion order is preserved). -/
abbrev Rec := List (String × JVal)

/-- Computable lexicographic comparison of character lists by code point,
the order Python's `sorted` uses on strings.  (Proved equivalent to
Mathlib's `List.Lex`-based order below, `str_le_iff`.) -/
def charlist_le : List Char → List Char → Bool
  | [], _ => true
  | _ :: _, [] => false
  | a :: as, b :: bs =>
      if a < b then true
      else if b < a then false
      else charlist_le as bs

/-- Computable string comparison by code points (Python `str` order). -/
def str_le (a b : String) : Bool := charlist_le a.data b.data

/-- Sorted union of all keys over all records, source line 75:
`sorted(set of k for r in rows for k in r.keys())`.  `dedup` gives the set,
`insertionSort` the ascending (code-point lexicographic) order that Python's
`sorted` produces on strings. -/
def sorted_keys (rows : List Rec) : List String :=
  ((rows.flatMap fun r => r.map Prod.fst).dedup).insertionSort
    (fun a b => str_le a b = true)

/-- Text written into one CSV cell for a present value, source line 80:
`json.dumps(v) if isinstance(v, (dict, list)) else v`, followed by the csv
module's stringification of the scalar (`str(v)`; `None` becomes the empty
cell). -/
def cell_str : JVal → String
  | .obj kvs => json_dumps (.obj kvs)
  | .arr xs => json_dumps (.arr xs)
  | .null => ""
  | .bool true => "True"
  | .bool false => "False"
  | .num n => toString n
  | .str s => s

/-- Cells of one CSV row in column order: a key missing from the record
yields a blank cell (`DictWriter` restval), a present key its `cell_str`.
Extra keys cannot occur (`extrasaction="ignore"` is vacuous: the columns
are the union of all keys). -/
def row_cells (keys : List String) (r : Rec) : List String :=
  keys.map fun k =>
    match r.lookup k with
    | some v => cell_str v
    | none => ""

/-- Quote one CSV field the way Python's csv module does (QUOTE_MINIMAL):
quote only if the field contains a comma, quote, CR or LF, doubling
embedded quotes. -/
def csv_quote (s : String) : String :=
  if s.data.any (fun c => c = ',' || c = '"' || c = '\n' || c = '\r') then
    "\"" ++ (s.replace "\"" "\"\"") ++ "\""
  else s

/-- One CSV line: comma-joined quoted fields plus the csv module's default
`\r\n` terminator. -/
def csv_line (cells : List String) : String :=
  String.intercalate "," (cells.map csv_quote) ++ "\r\n"

/-- `write_csv` as the full text written to the output file: the empty
string for no rows (lines 71-74: the file is opened and `""` written), else
the header line followed by one line per record in order (lines 75-80). -/
def write_csv (rows : List Rec) : String :=
  if rows.isEmpty then ""
  else
    let keys := sorted_keys rows
    csv_line keys ++ String.join (rows.map fun r => csv_line (row_cells keys r))

/-! ## Config resolution (`build_headers`, source lines 15-25) -/

/-- State of the `REFTAB_HEADERS` environment variable: unset/empty (the
`if extra:` guard fails), set but not valid JSON (`json.loads` raises and
the exception is swallowed, lines 21-24), or set and parsed to a value. -/
inductive HeadersEnvVar where
  | absent
  | malformed
  | parsed (v : JVal)

/-- The process environment as read by the program: `REFTAB_BASE_URL`,
`REFTAB_PUBLIC_KEY` and `REFTAB_SECRET_KEY` default to `""` when unset
(`os.getenv(..., "")`), so a missing variable and an empty one coincide. -/
structure Env where
  base_url : String
  public_key : String
  secret_key : String
  headers_var : HeadersEnvVar

/-- Python `d[k] = v` on a dict modelled as an association list with unique
keys: overwrite the first (only) occurrence in place, append otherwise. -/
def dict_set : List (String × JVal) → String → JVal → List (String × JVal)
  | [], k, v => [(k, v)]
  | kv :: rest, k, v =>
      if kv.1 = k then (k, v) :: rest
      else kv :: dict_set rest k v

/-- Python `base.update(extra)`: set each pair of `extra` in order. -/
def dict_update (base : List (String × JVal)) (extra : List (String × JVal)) :
    List (String × JVal) :=
  extra.foldl (fun acc kv => dict_set acc kv.1 kv.2) base

/-- `build_headers`: the base mapping sends the two key environment values
as `X-Public-Key` / `X-Secret-Key`; a parsed `REFTAB_HEADERS` JSON object
is merged over it with `dict.update` (entries may overwrite the two
required headers).  A parsed non-object value generally makes `update`
raise, which the bare `except` swallows, leaving the base mapping (the
exotic Python corner where `update` accepts a sequence of pairs is not
exercised by any claim and is modelled as the swallowed case). -/
def build_headers (env : Env) : List (String × JVal) :=
  let base : List (String × JVal) :=
    [("X-Public-Key", .str env.public_key), ("X-Secret-Key", .str env.secret_key)]
  match env.headers_var with
  | .absent => base
  | .malformed => base
  | .parsed (.obj kvs) => dict_update base kvs
  | .parsed _ => base

/-- Truthiness of `headers.get(k)`: falsy when the key is absent (`None`)
or its value is falsy (in particular the empty string). -/
def header_get_truthy (h : List (String × JVal)) (k : String) : Bool :=
  match h.lookup k with
  | some v => jtruthy v
  | none => false

/-- The credential check of `main`, source line 98:
`not headers.get("X-Public-Key") or not headers.get("X-Secret-Key")` on the
merged header mapping. -/
def missing_credentials (env : Env) : Bool :=
  let headers := build_headers env
  !header_get_truthy headers "X-Public-Key" ||
    !header_get_truthy headers "X-Secret-Key"

/-! ## The CLI entry point (`main`, source lines 92-119) -/

/-- Parsed command-line arguments (`parse_args`).  `sleep` is omitted: it
never influences any observable result of the model. -/
structure Args where
  resource : String
  query : Option String
  limit : Nat
  out : Option String
  stdoutFlag : Bool

/-- Outcome of the fetch call inside the `try` block, source lines 103-113:
success with records, `requests.HTTPError` (whose message is built from the
response status), or any other exception with its stringified message. -/
inductive FetchOutcome where
  | ok (rows : List Rec)
  | httpError (status : Nat)
  | exc (msg : String)

/-- Outcome of opening/writing the CSV output file in `write_csv`. -/
inductive WriteOutcome where
  | ok
  | ioError (msg : String)

/-- Observable result of one program run: process exit code, lines printed
to stdout, content written to the `--out` file (if any), and whether an
uncaught exception escaped `main` (Python then prints a traceback to
stderr and the interpreter exits with code 1). -/
structure MainResult where
  exitCode : Nat
  stdout : List String
  fileWritten : Option String
  traceback : Bool

/-- A `print(json.dumps({"ok": False, "error": msg}))` line. -/
def err_line (msg : String) : String :=
  json_dumps (.obj [("ok", .bool false), ("error", .str msg)])

/-- The final stdout line on success, source lines 116-119: the full JSON
array under `--stdout`, else the summary object (`args.out or ""`). -/
def final_line (args : Args) (rows : List Rec) : String :=
  if args.stdoutFlag then
    json_dumps (.arr (rows.map JVal.obj))
  else
    json_dumps (.obj [("ok", .bool true), ("resource", .str args.resource),
      ("count", .num rows.length), ("out", .str (args.out.getD ""))])

namespace extact

/-- `main`, parameterized by the fetch outcome and the file-write outcome.
Missing base URL exits 1 (lines 93-96); failed credential check exits 1
(lines 97-100); `HTTPError` from the fetch prints `HTTP <status>` and exits
2 (lines 108-110); any other fetch exception prints its message and exits 2
(lines 111-113); on success, `write_csv` runs OUTSIDE the try block (line
115), so a file I/O error there is an uncaught exception: traceback,
nothing on stdout, interpreter exit code 1.  Otherwise the final line is
printed and the process exits 0. -/
def main (env : Env) (args : Args) (fetch : FetchOutcome)
    (wres : WriteOutcome) : MainResult :=
  if env.base_url = "" then
    ⟨1, [err_line "Missing REFTAB_BASE_URL"], none, false⟩
  else if missing_credentials env then
    ⟨1, [err_line "Missing REFTAB_PUBLIC_KEY or REFTAB_SECRET_KEY"], none, false⟩
  else
    match fetch with
    | .httpError st => ⟨2, [err_line ("HTTP " ++ toString st)], none, false⟩
    | .exc msg => ⟨2, [err_line msg], none, false⟩
    | .ok rows =>
        match args.out with
        | some _ =>
            match wres with
            | .ioError _ => ⟨1, [], none, true⟩
            | .ok => ⟨0, [final_line args rows], some (write_csv rows), false⟩
        | none => ⟨0, [final_line args rows], none, false⟩

end extact

/-! ## Step lemmas for the pagination loop -/

lemma go_nil (limit offset : Nat) (out : List JVal) :
    get_paginated_go limit offset out [] = ⟨[], 0, .exhausted⟩ := rfl

lemma go_5xx (limit offset : Nat) (out : List JVal) (r : HResp)
    (rest : List HResp) (h : 500 ≤ r.status) :
    get_paginated_go limit offset out (r :: rest) =
      ⟨offset :: (get_paginated_go limit offset out rest).offsets,
       (get_paginated_go limit offset out rest).retrySleeps + 1,
       (get_paginated_go limit offset out rest).result⟩ := by
  simp [get_paginated_go, h]

lemma go_4xx (limit offset : Nat) (out : List JVal) (r : HResp)
    (rest : List HResp) (h4 : 400 ≤ r.status) (h5 : r.status < 500) :
    get_paginated_go limit offset out (r :: rest) =
      ⟨[offset], 0, .httpError r.status⟩ := by
  simp [get_paginated_go, h4, Nat.not_le.2 h5]

lemma go_empty_batch (limit offset : Nat) (out : List JVal) (r : HResp)
    (rest : List HResp) (h4 : r.status < 400)
    (hb : jtruthy (batch_of_body r.body) = false) :
    get_paginated_go limit offset out (r :: rest) = ⟨[offset], 0, .ok out⟩ := by
  have h5 : r.status < 500 := lt_of_lt_of_le h4 (by omega)
  simp [get_paginated_go, Nat.not_le.2 h5, Nat.not_le.2 h4, hb]

lemma go_short_batch (limit offset : Nat) (out : List JVal) (r : HResp)
    (rest : List HResp) (items : List JVal) (h4 : r.status < 400)
    (hb : jtruthy (batch_of_body r.body) = true)
    (hi : batch_items (batch_of_body r.body) = some items)
    (hlen : items.length < limit) :
    get_paginated_go limit offset out (r :: rest) =
      ⟨[offset], 0, .ok (out ++ items)⟩ := by
  have h5 : r.status < 500 := lt_of_lt_of_le h4 (by omega)
  simp [get_paginated_go, Nat.not_le.2 h5, Nat.not_le.2 h4, hb, hi, hlen]

lemma go_full_batch (limit offset : Nat) (out : List JVal) (r : HResp)
    (rest : List HResp) (items : List JVal) (h4 : r.status < 400)
    (hb : jtruthy (batch_of_body r.body) = true)
    (hi : batch_items (batch_of_body r.body) = some items)
    (hlen : limit ≤ items.length) :
    get_paginated_go limit offset out (r :: rest) =
      ⟨offset :: (get_paginated_go limit (offset + limit) (out ++ items) rest).offsets,
       (get_paginated_go limit (offset + limit) (out ++ items) rest).retrySleeps,
       (get_paginated_go limit (offset + limit) (out ++ items) rest).result⟩ := by
  have h5 : r.status < 500 := lt_of_lt_of_le h4 (by omega)
  simp [get_paginated_go, Nat.not_le.2 h5, Nat.not_le.2 h4, hb, hi,
    Nat.not_lt.2 hlen]

lemma batch_arr_nonempty (p : List JVal) (h : p ≠ []) :
    jtruthy (batch_of_body (.arr p)) = true ∧
      batch_items (batch_of_body (.arr p)) = some p := by
  have : p.isEmpty = false := by simpa using h
  simp [batch_of_body, pyOr, jtruthy, batch_items, this]

/-! ## Claim C1 -/

/-- C1: for every positive page size `limit` and a server returning pages of
sizes `[limit, limit, k]` with `k < limit`, `get_paginated` returns exactly
`2*limit + k` records, concatenated in server page order and intra-page
order with no deduplication or re-ordering, and issues exactly 3 requests
whose offset query parameters are `0`, `limit` and `2*limit`, with no retry
sleeps. -/
theorem C1_pager_three_pages (limit k : Nat) (hl : 0 < limit) (hk : k < limit)
    (p1 p2 p3 : List JVal) (h1 : p1.length = limit) (h2 : p2.length = limit)
    (h3 : p3.length = k) :
    get_paginated limit [⟨200, .arr p1⟩, ⟨200, .arr p2⟩, ⟨200, .arr p3⟩] =
      ⟨[0, limit, 2 * limit], 0, .ok (p1 ++ p2 ++ p3)⟩ ∧
    (p1 ++ p2 ++ p3).length = 2 * limit + k := by
  have hp1 : p1 ≠ [] := by intro h; rw [h] at h1; simp at h1; omega
  have hp2 : p2 ≠ [] := by intro h; rw [h] at h2; simp at h2; omega
  obtain ⟨hb1, hi1⟩ := batch_arr_nonempty p1 hp1
  obtain ⟨hb2, hi2⟩ := batch_arr_nonempty p2 hp2
  constructor
  · show get_paginated_go limit 0 [] _ = _
    rw [go_full_batch limit 0 [] ⟨200, .arr p1⟩
        [⟨200, .arr p2⟩, ⟨200, .arr p3⟩] p1 (by show (200:Nat) < 400; decide) hb1 hi1 (by omega),
      go_full_batch limit (0 + limit) ([] ++ p1) ⟨200, .arr p2⟩
        [⟨200, .arr p3⟩] p2 (by show (200:Nat) < 400; decide) hb2 hi2 (by omega)]
    by_cases hp3 : p3 = []
    · rw [go_empty_batch limit (0 + limit + limit) (([] ++ p1) ++ p2)
          ⟨200, .arr p3⟩ [] (by show (200:Nat) < 400; decide) (by rw [hp3]; decide)]
      simp [two_mul, hp3]
    · obtain ⟨hb3, hi3⟩ := batch_arr_nonempty p3 hp3
      rw [go_short_batch limit (0 + limit + limit) (([] ++ p1) ++ p2)
          ⟨200, .arr p3⟩ [] p3 (by show (200:Nat) < 400; decide) hb3 hi3 (by omega)]
      simp [two_mul]
  · simp [h1, h2, h3]; omega

/-- Witness for C1 at `limit = 2`, `k = 1`. -/
theorem C1_pager_three_pages_witness :
    get_paginated 2 [⟨200, .arr [.num 1, .num 2]⟩, ⟨200, .arr [.num 3, .num 4]⟩,
        ⟨200, .arr [.num 5]⟩] =
      ⟨[0, 2, 2 * 2], 0, .ok ([.num 1, .num 2] ++ [.num 3, .num 4] ++ [.num 5])⟩ ∧
    (([.num 1, .num 2] ++ [.num 3, .num 4] ++ [.num 5] : List JVal)).length =
      2 * 2 + 1 :=
  C1_pager_three_pages 2 1 (by decide) (by decide) _ _ _ rfl rfl rfl

/-! ## Claim C4 -/

/-- C4: a prefix of responses with status `>= 500` makes the pager sleep and
re-issue the request at the same offset for each of them — the offset stays
at its value (0 at the start of a run) and no error is raised — and the run
then continues exactly as the run over the remaining script; in particular,
for 5xx responses followed by a 200 whose payload is a short page `p`, the
pager finally returns `p`. -/
theorem C4_retry_same_offset :
    (∀ (limit : Nat) (errs rest : List HResp), (∀ r ∈ errs, 500 ≤ r.status) →
      get_paginated limit (errs ++ rest) =
        ⟨List.replicate errs.length 0 ++ (get_paginated limit rest).offsets,
         errs.length + (get_paginated limit rest).retrySleeps,
         (get_paginated limit rest).result⟩) ∧
    (∀ (limit : Nat) (errs : List HResp) (p : List JVal),
      (∀ r ∈ errs, 500 ≤ r.status) → p.length < limit →
      get_paginated limit (errs ++ [⟨200, .arr p⟩]) =
        ⟨List.replicate (errs.length + 1) 0, errs.length, .ok p⟩) := by
  have part1 : ∀ (limit : Nat) (errs rest : List HResp),
      (∀ r ∈ errs, 500 ≤ r.status) →
      get_paginated limit (errs ++ rest) =
        ⟨List.replicate errs.length 0 ++ (get_paginated limit rest).offsets,
         errs.length + (get_paginated limit rest).retrySleeps,
         (get_paginated limit rest).result⟩ := by
    intro limit errs rest h5
    induction errs with
    | nil => simp [get_paginated]
    | cons r errs ih =>
        have hr : 500 ≤ r.status := h5 r (by simp)
        have hrest : ∀ r ∈ errs, 500 ≤ r.status := fun x hx => h5 x (by simp [hx])
        show get_paginated_go limit 0 [] ((r :: errs) ++ rest) = _
        rw [List.cons_append, go_5xx limit 0 [] r (errs ++ rest) hr]
        have := ih hrest
        rw [show get_paginated_go limit 0 [] (errs ++ rest) =
              get_paginated limit (errs ++ rest) from rfl, this]
        simp [List.replicate_succ]
        omega
  refine ⟨part1, ?_⟩
  intro limit errs p h5 hp
  have hsingle : get_paginated limit [⟨200, .arr p⟩] = ⟨[0], 0, .ok p⟩ := by
    by_cases hp0 : p = []
    · show get_paginated_go limit 0 [] _ = _
      rw [go_empty_batch limit 0 [] ⟨200, .arr p⟩ []
          (by show (200:Nat) < 400; decide) (by rw [hp0]; decide)]
      simp [hp0]
    · obtain ⟨hb, hi⟩ := batch_arr_nonempty p hp0
      show get_paginated_go limit 0 [] _ = _
      rw [go_short_batch limit 0 [] ⟨200, .arr p⟩ [] p
          (by show (200:Nat) < 400; decide) hb hi hp]
      simp
  rw [part1 limit errs [⟨200, .arr p⟩] h5, hsingle]
  rw [List.replicate_succ']
  simp

/-- Witness for C4: two 5xx responses then a short 200 page, `limit = 2`. -/
theorem C4_retry_same_offset_witness :
    get_paginated 2 [⟨503, .null⟩, ⟨500, .null⟩, ⟨200, .arr [.num 7]⟩] =
      ⟨List.replicate (2 + 1) 0, 2, .ok [.num 7]⟩ :=
  C4_retry_same_offset.2 2 [⟨503, .null⟩, ⟨500, .null⟩] [.num 7]
    (by decide) (by decide)

/-! ## Claim C5 -/

/-- C5: whenever a fetched batch has length exactly `limit` (positive), the
pager issues exactly one further request at the offset advanced by `limit`,
even when that next page turns out empty; the empty next page is not
appended and the accumulated records are returned. -/
theorem C5_boundary_page_extra_request (limit : Nat) (hl : 0 < limit)
    (p : List JVal) (hp : p.length = limit) (offset : Nat) (out : List JVal) :
    get_paginated_go limit offset out [⟨200, .arr p⟩, ⟨200, .arr []⟩] =
      ⟨[offset, offset + limit], 0, .ok (out ++ p)⟩ := by
  have hp0 : p ≠ [] := by intro h; rw [h] at hp; simp at hp; omega
  obtain ⟨hb, hi⟩ := batch_arr_nonempty p hp0
  rw [go_full_batch limit offset out ⟨200, .arr p⟩ [⟨200, .arr []⟩] p
      (by show (200:Nat) < 400; decide) hb hi (by omega),
    go_empty_batch limit (offset + limit) (out ++ p) ⟨200, .arr []⟩ []
      (by show (200:Nat) < 400; decide) (by decide)]

/-- Witness for C5 at `limit = 2`, offset 0, empty accumulator. -/
theorem C5_boundary_page_extra_request_witness :
    get_paginated_go 2 0 [] [⟨200, .arr [.num 1, .num 2]⟩, ⟨200, .arr []⟩] =
      ⟨[0, 0 + 2], 0, .ok ([] ++ [.num 1, .num 2])⟩ :=
  C5_boundary_page_extra_request 2 (by decide) [.num 1, .num 2] rfl 0 []

/-! ## Claim C6 -/

/-- C6: if the first page is empty — where, per the body-parsing rules, a
null body, a mapping whose `results` entry is absent or falsy/empty, an
empty sequence, and any body that is neither a mapping nor a sequence
(number, boolean, string) all give an empty batch — the pager returns an
empty ResultSet after exactly one request, issued at offset 0, with the
empty page not appended. -/
theorem C6_empty_first_page :
    (∀ (limit : Nat) (b : JVal), jtruthy (batch_of_body b) = false →
      get_paginated limit [⟨200, b⟩] = ⟨[0], 0, .ok []⟩) ∧
    jtruthy (batch_of_body .null) = false ∧
    (∀ kvs : List (String × JVal), kvs.lookup "results" = none →
      jtruthy (batch_of_body (.obj kvs)) = false) ∧
    (∀ (kvs : List (String × JVal)) (v : JVal), kvs.lookup "results" = some v →
      jtruthy v = false → jtruthy (batch_of_body (.obj kvs)) = false) ∧
    jtruthy (batch_of_body (.arr [])) = false ∧
    (∀ n : Int, jtruthy (batch_of_body (.num n)) = false) ∧
    (∀ b : Bool, jtruthy (batch_of_body (.bool b)) = false) ∧
    (∀ s : String, jtruthy (batch_of_body (.str s)) = false) := by
  refine ⟨?_, by decide, ?_, ?_, by decide, ?_, ?_, ?_⟩
  · intro limit b hb
    show get_paginated_go limit 0 [] _ = _
    rw [go_empty_batch limit 0 [] ⟨200, b⟩ [] (by show (200:Nat) < 400; decide) hb]
  · intro kvs hnone
    rcases hk : kvs.isEmpty with _ | _
    · simp [batch_of_body, pyOr, jtruthy, hk, hnone]
    · simp [batch_of_body, pyOr, jtruthy, hk]
  · intro kvs v hsome hv
    have hobj : jtruthy (.obj kvs) = true := by
      cases kvs with
      | nil => simp at hsome
      | cons a l => simp [jtruthy]
    have hbv : batch_of_body (.obj kvs) = pyOr v (.arr []) := by
      simp [batch_of_body, pyOr, hobj, hsome]
    rw [hbv]
    simp only [pyOr, hv]
    simp [jtruthy]
  · intro n
    rcases hn : (n == 0) with _ | _
    · simp [batch_of_body, pyOr, jtruthy, hn]
    · simp [batch_of_body, pyOr, jtruthy, hn]
  · intro b
    cases b
    · simp [batch_of_body, pyOr, jtruthy]
    · simp [batch_of_body, pyOr, jtruthy]
  · intro s
    rcases hs : s.isEmpty with _ | _
    · simp [batch_of_body, pyOr, jtruthy, hs]
    · simp [batch_of_body, pyOr, jtruthy, hs]

/-- Witness for C6: a body that is a mapping with an empty `results` list. -/
theorem C6_empty_first_page_witness :
    get_paginated 5 [⟨200, .obj [("results", .arr [])]⟩] = ⟨[0], 0, .ok []⟩ :=
  C6_empty_first_page.1 5 (.obj [("results", .arr [])]) (by decide)

/-! ## The string order used by `sorted_keys` agrees with Mathlib's -/

lemma charlist_le_iff_not_lex (a : List Char) :
    ∀ b : List Char, charlist_le a b = true ↔ ¬ List.Lex (· < ·) b a := by
  induction a with
  | nil =>
      intro b
      simp [charlist_le, List.Lex.not_nil_right]
  | cons c cs ih =>
      intro b
      cases b with
      | nil =>
          simp [charlist_le]
          exact List.Lex.nil
      | cons d ds =>
          by_cases hcd : c < d
          · simp only [charlist_le, hcd, if_true, true_iff]
            intro hlex
            cases hlex with
            | cons h => exact absurd hcd (lt_irrefl _)
            | rel h => exact absurd hcd (asymm h)
          · by_cases hdc : d < c
            · have hlex : List.Lex (· < ·) (d :: ds) (c :: cs) :=
                List.Lex.rel hdc
              simp only [charlist_le, hcd, if_false, hdc, if_true]
              simp [hlex]
            · have hceq : c = d := le_antisymm (not_lt.1 hdc) (not_lt.1 hcd)
              subst hceq
              simp only [charlist_le, lt_irrefl, if_false]
              rw [ih ds, List.Lex.cons_iff]

lemma str_le_iff (a b : String) : str_le a b = true ↔ a ≤ b := by
  rw [String.le_iff_toList_le, ← not_lt]
  exact charlist_le_iff_not_lex a.data b.data

instance : IsTotal String (fun a b => str_le a b = true) :=
  ⟨fun a b => by
    rw [str_le_iff, str_le_iff]
    exact le_total a b⟩

instance : IsTrans String (fun a b => str_le a b = true) :=
  ⟨fun a b c hab hbc => by
    rw [str_le_iff] at hab hbc ⊢
    exact le_trans hab hbc⟩

/-! ## Claims C7 and C8 -/

/-- C7: for a non-empty ResultSet, `write_csv` writes one header row equal
to the sorted union of all keys appearing in any record, then one row per
record preserving order; a cell is blank for a key the record lacks,
is the JSON text of the value for nested object/array values, and is the
scalar written as-is otherwise; e.g. rows `[{"a":1},{"b":2}]` produce
header `a,b` and rows `1,` and `,2`. -/
theorem C7_csv_writer (rows : List Rec) (h : rows ≠ []) :
    write_csv rows =
      csv_line (sorted_keys rows) ++
        String.join (rows.map fun r => csv_line (row_cells (sorted_keys rows) r)) ∧
    List.Sorted (fun a b => a ≤ b) (sorted_keys rows) ∧
    (∀ k, k ∈ sorted_keys rows ↔ ∃ r ∈ rows, k ∈ r.map Prod.fst) ∧
    (∀ (keys : List String) (r : Rec),
      row_cells keys r = keys.map fun k => ((r.lookup k).map cell_str).getD "") ∧
    (∀ xs, cell_str (.arr xs) = json_dumps (.arr xs)) ∧
    (∀ kvs, cell_str (.obj kvs) = json_dumps (.obj kvs)) ∧
    write_csv [[("a", .num 1)], [("b", .num 2)]] = "a,b\r\n1,\r\n,2\r\n" := by
  have hne : rows.isEmpty = false := by simpa using h
  refine ⟨by simp [write_csv, hne], ?_, ?_, ?_, ?_, ?_, ?_⟩
  · have hs := List.sorted_insertionSort (fun a b => str_le a b = true)
      ((rows.flatMap fun r => r.map Prod.fst).dedup)
    exact List.Pairwise.imp (fun h => (str_le_iff _ _).1 h) hs
  · intro k
    unfold sorted_keys
    rw [(List.perm_insertionSort _ _).mem_iff, List.mem_dedup]
    simp [List.mem_flatMap]
  · intro keys r
    unfold row_cells
    refine List.map_congr_left ?_
    intro k _
    cases r.lookup k <;> simp
  · intro xs; rfl
  · intro kvs; rfl
  · rfl

/-- Witness for C7: the claim's example rows. -/
theorem C7_csv_writer_witness :
    write_csv [[("a", JVal.num 1)], [("b", JVal.num 2)]] = "a,b\r\n1,\r\n,2\r\n" :=
  (C7_csv_writer [[("a", JVal.num 1)], [("b", JVal.num 2)]]
    (List.cons_ne_nil _ _)).2.2.2.2.2.2

/-- C8: `write_csv` applied to an empty ResultSet produces a zero-byte
file: the text written is empty — no header line and no rows. -/
theorem C8_empty_resultset_zero_bytes :
    write_csv [] = "" ∧ (write_csv []).length = 0 := ⟨rfl, rfl⟩

/-! ## Lookup lemmas for the header dictionary -/

lemma lookup_cons_eq_ite (k' k : String) (v : JVal)
    (rest : List (String × JVal)) :
    ((k, v) :: rest).lookup k' = if k' = k then some v else rest.lookup k' := by
  by_cases h : k' = k
  · simp [List.lookup_cons, h]
  · simp [List.lookup_cons, h, beq_false_of_ne h]

lemma lookup_dict_set (d : List (String × JVal)) (k : String) (v : JVal)
    (k' : String) :
    (dict_set d k v).lookup k' = if k' = k then some v else d.lookup k' := by
  induction d with
  | nil =>
      show ((k, v) :: []).lookup k' = _
      rw [lookup_cons_eq_ite]
  | cons kv rest ih =>
      rcases kv with ⟨a, b⟩
      by_cases hak : a = k
      · rw [show dict_set ((a, b) :: rest) k v = (k, v) :: rest from by
          simp [dict_set, hak]]
        rw [lookup_cons_eq_ite, lookup_cons_eq_ite]
        by_cases h : k' = k
        · simp [h]
        · have h3 : ¬ k' = a := by rw [hak]; exact h
          simp [h, h3]
      · rw [show dict_set ((a, b) :: rest) k v = (a, b) :: dict_set rest k v
            from by simp [dict_set, hak]]
        rw [lookup_cons_eq_ite, lookup_cons_eq_ite, ih]
        by_cases h1 : k' = a
        · have h2 : ¬ k' = k := fun hh => hak (h1.symm.trans hh)
          simp [h1, h2, hak]
        · simp [h1]

lemma lookup_dict_update_not_mem (extra : List (String × JVal)) :
    ∀ (base : List (String × JVal)) (k : String), (∀ kv ∈ extra, kv.1 ≠ k) →
    (dict_update base extra).lookup k = base.lookup k := by
  induction extra with
  | nil => intro base k _; rfl
  | cons kv extra ih =>
      intro base k h
      show (dict_update (dict_set base kv.1 kv.2) extra).lookup k = _
      rw [ih (dict_set base kv.1 kv.2) k (fun x hx => h x (by simp [hx])),
        lookup_dict_set]
      have h2 : ¬ k = kv.1 := fun hh => h kv (by simp) hh.symm
      simp [h2]

lemma lookup_dict_update_mem (extra : List (String × JVal)) :
    ∀ (base : List (String × JVal)) (k : String) (v : JVal),
    (extra.map Prod.fst).Nodup → extra.lookup k = some v →
    (dict_update base extra).lookup k = some v := by
  induction extra with
  | nil => intro base k v _ h; simp [List.lookup] at h
  | cons kv extra ih =>
      intro base k v hnd h
      rcases kv with ⟨a, b⟩
      have hnd2 : (extra.map Prod.fst).Nodup := (List.nodup_cons.1 hnd).2
      rw [lookup_cons_eq_ite] at h
      by_cases hk : k = a
      · rw [if_pos hk] at h
        have hv : b = v := Option.some.inj h
        have hnot : ∀ x ∈ extra, x.1 ≠ k := by
          intro x hx hxk
          have hm : x.1 ∈ extra.map Prod.fst := List.mem_map_of_mem Prod.fst hx
          rw [hxk, hk] at hm
          exact (List.nodup_cons.1 hnd).1 hm
        show (dict_update (dict_set base a b) extra).lookup k = _
        rw [lookup_dict_update_not_mem extra (dict_set base a b) k hnot,
          lookup_dict_set]
        simp [hk, hv]
      · rw [if_neg hk] at h
        exact ih (dict_set base a b) k v hnd2 h

/-! ## Claim C2 -/

/-- C2 counterexample: with valid configuration, a successful fetch and
`--out` given, a file I/O error while writing the CSV is NOT mapped to exit
code 2 with a JSON error line: `write_csv` runs outside the `try` block, so
the exception escapes — exit code 1, nothing on stdout, a traceback. -/
theorem C2_counterexample :
    extact.main ⟨"https://api.example.com", "pub", "sec", .absent⟩
        ⟨"assets", none, 200, some "out.csv", false⟩
        (.ok [[("a", .num 1)]]) (.ioError "disk full") =
      ⟨1, [], none, true⟩ := rfl

/-- C2 (amended): configuration failure exits 1 with a single-line JSON
error; fetch failures (HTTP error or other exception) exit 2 with a
single-line JSON error and no stack trace; success exits 0 — but a file
I/O error while writing the CSV escapes as an uncaught exception
(traceback, interpreter exit code 1, no JSON error line). -/
theorem C2_exit_code_mapping (env : Env) (args : Args) (fetch : FetchOutcome)
    (w : WriteOutcome) :
    (env.base_url = "" →
      extact.main env args fetch w =
        ⟨1, [err_line "Missing REFTAB_BASE_URL"], none, false⟩) ∧
    (env.base_url ≠ "" → missing_credentials env = true →
      extact.main env args fetch w =
        ⟨1, [err_line "Missing REFTAB_PUBLIC_KEY or REFTAB_SECRET_KEY"],
          none, false⟩) ∧
    (env.base_url ≠ "" → missing_credentials env = false →
      ∀ st, fetch = .httpError st →
      extact.main env args fetch w =
        ⟨2, [err_line ("HTTP " ++ toString st)], none, false⟩) ∧
    (env.base_url ≠ "" → missing_credentials env = false →
      ∀ msg, fetch = .exc msg →
      extact.main env args fetch w = ⟨2, [err_line msg], none, false⟩) ∧
    (env.base_url ≠ "" → missing_credentials env = false →
      ∀ rows, fetch = .ok rows → args.out = none →
      extact.main env args fetch w =
        ⟨0, [final_line args rows], none, false⟩) ∧
    (env.base_url ≠ "" → missing_credentials env = false →
      ∀ rows p, fetch = .ok rows → args.out = some p → w = .ok →
      extact.main env args fetch w =
        ⟨0, [final_line args rows], some (write_csv rows), false⟩) ∧
    (env.base_url ≠ "" → missing_credentials env = false →
      ∀ rows p msg, fetch = .ok rows → args.out = some p → w = .ioError msg →
      extact.main env args fetch w = ⟨1, [], none, true⟩) := by
  refine ⟨fun h => by simp [extact.main, h], ?_, ?_, ?_, ?_, ?_, ?_⟩
  · intro h1 h2
    simp [extact.main, h1, h2]
  · intro h1 h2 st hf
    subst hf
    simp [extact.main, h1, h2]
  · intro h1 h2 msg hf
    subst hf
    simp [extact.main, h1, h2]
  · intro h1 h2 rows hf hout
    subst hf
    simp [extact.main, h1, h2, hout]
  · intro h1 h2 rows p hf hout hw
    subst hf; subst hw
    simp [extact.main, h1, h2, hout]
  · intro h1 h2 rows p msg hf hout hw
    subst hf; subst hw
    simp [extact.main, h1, h2, hout]

/-- Witness for C2: the missing-base-URL branch at a concrete input. -/
theorem C2_exit_code_mapping_witness :
    extact.main ⟨"", "pub", "sec", .absent⟩ ⟨"assets", none, 200, none, false⟩
        (.ok []) .ok =
      ⟨1, [err_line "Missing REFTAB_BASE_URL"], none, false⟩ :=
  (C2_exit_code_mapping ⟨"", "pub", "sec", .absent⟩
    ⟨"assets", none, 200, none, false⟩ (.ok []) .ok).1 rfl

/-! ## Claim C3 -/

/-- C3 counterexample: with the base URL present, a non-empty public key
and an empty secret key, the program still exits 1 at the credential check
— one non-empty key does NOT suffice, contrary to the claim. -/
theorem C3_counterexample :
    extact.main ⟨"https://api.example.com", "pub", "", .absent⟩
        ⟨"assets", none, 200, none, false⟩ (.ok []) .ok =
      ⟨1, [err_line "Missing REFTAB_PUBLIC_KEY or REFTAB_SECRET_KEY"], none,
        false⟩ := rfl

/-- C3 (amended): the config stage fails (exit code 1 with a structured
JSON error and no traceback) exactly when the base URL is absent or at
least one of the two merged credential headers is absent/empty — both
`X-Public-Key` and `X-Secret-Key` must be non-empty to proceed. -/
theorem C3_config_failure_iff (env : Env) (args : Args) (fetch : FetchOutcome)
    (w : WriteOutcome) :
    (((extact.main env args fetch w).exitCode = 1 ∧
        (extact.main env args fetch w).traceback = false) ↔
      (env.base_url = "" ∨ missing_credentials env = true)) ∧
    (missing_credentials env = true ↔
      (header_get_truthy (build_headers env) "X-Public-Key" = false ∨
        header_get_truthy (build_headers env) "X-Secret-Key" = false)) := by
  constructor
  · by_cases hbase : env.base_url = ""
    · simp [extact.main, hbase]
    · by_cases hmc : missing_credentials env
      · simp [extact.main, hbase, hmc]
      · rcases fetch with rows | st | msg
        · rcases hout : args.out with _ | p
          · simp [extact.main, hbase, hmc, hout]
          · rcases w with _ | msg2
            · simp [extact.main, hbase, hmc, hout]
            · simp [extact.main, hbase, hmc, hout]
        · simp [extact.main, hbase, hmc]
        · simp [extact.main, hbase, hmc]
  · simp [missing_credentials]

/-! ## Claim C9 -/

/-- C9: a non-retryable HTTP status mid-pagination makes the pager fail
with an HTTP error that carries none of the records accumulated so far
(they are discarded), and under such a fetch failure (or any other fetch
exception) `main` writes nothing to the CSV output file and prints only
the single-line JSON error object, exiting 2. -/
theorem C9_no_partial_results :
    (∀ (limit offset : Nat) (out : List JVal) (r : HResp) (rest : List HResp),
      400 ≤ r.status → r.status < 500 →
      get_paginated_go limit offset out (r :: rest) =
        ⟨[offset], 0, .httpError r.status⟩) ∧
    (∀ (env : Env) (args : Args) (fetch : FetchOutcome) (w : WriteOutcome),
      env.base_url ≠ "" → missing_credentials env = false →
      (∃ st, fetch = .httpError st) ∨ (∃ msg, fetch = .exc msg) →
      (extact.main env args fetch w).exitCode = 2 ∧
      (extact.main env args fetch w).fileWritten = none ∧
      ∃ e, (extact.main env args fetch w).stdout = [err_line e]) := by
  constructor
  · intro limit offset out r rest h4 h5
    exact go_4xx limit offset out r rest h4 h5
  · intro env args fetch w h1 h2 hf
    rcases hf with ⟨st, rfl⟩ | ⟨msg, rfl⟩
    · exact ⟨by simp [extact.main, h1, h2], by simp [extact.main, h1, h2],
        ⟨"HTTP " ++ toString st, by simp [extact.main, h1, h2]⟩⟩
    · exact ⟨by simp [extact.main, h1, h2], by simp [extact.main, h1, h2],
        ⟨msg, by simp [extact.main, h1, h2]⟩⟩

/-- Witness for C9: a 404 on the third page, then `main` under that
failure. -/
theorem C9_no_partial_results_witness :
    get_paginated_go 2 4 [.num 1] [⟨404, .null⟩] = ⟨[4], 0, .httpError 404⟩ ∧
    (extact.main ⟨"u", "p", "s", .absent⟩ ⟨"assets", none, 200, some "o", false⟩
        (.httpError 404) .ok).exitCode = 2 :=
  ⟨C9_no_partial_results.1 2 4 [.num 1] ⟨404, .null⟩ [] (by decide) (by decide),
   (C9_no_partial_results.2 ⟨"u", "p", "s", .absent⟩
      ⟨"assets", none, 200, some "o", false⟩ (.httpError 404) .ok
      (by decide) (by decide) (Or.inl ⟨404, rfl⟩)).1⟩

/-! ## Claim C10 -/

/-- C10: the credential check runs on the merged header mapping, after the
`REFTAB_HEADERS` entries have been applied: a parsed headers object that
supplies truthy `X-Public-Key` and `X-Secret-Key` lets the program proceed
even when both key environment variables are empty, and an entry that
overwrites either required header with a falsy (e.g. empty) value forces
exit code 1. -/
theorem C10_credentials_checked_after_merge :
    (∀ (env : Env) (kvs : List (String × JVal)) (bv sv : JVal),
      env.headers_var = .parsed (.obj kvs) →
      (kvs.map Prod.fst).Nodup →
      kvs.lookup "X-Public-Key" = some bv → jtruthy bv = true →
      kvs.lookup "X-Secret-Key" = some sv → jtruthy sv = true →
      missing_credentials env = false ∧
      (∀ (args : Args) (rows : List Rec), env.base_url ≠ "" → args.out = none →
        extact.main env args (.ok rows) .ok =
          ⟨0, [final_line args rows], none, false⟩)) ∧
    (∀ (env : Env) (kvs : List (String × JVal)) (v : JVal),
      env.base_url ≠ "" →
      env.headers_var = .parsed (.obj kvs) →
      (kvs.map Prod.fst).Nodup →
      (kvs.lookup "X-Public-Key" = some v ∨ kvs.lookup "X-Secret-Key" = some v) →
      jtruthy v = false →
      ∀ (args : Args) (fetch : FetchOutcome) (w : WriteOutcome),
        extact.main env args fetch w =
          ⟨1, [err_line "Missing REFTAB_PUBLIC_KEY or REFTAB_SECRET_KEY"],
            none, false⟩) := by
  constructor
  · intro env kvs bv sv hvar hnd hpb hjb hps hjs
    have hbh : build_headers env =
        dict_update [("X-Public-Key", .str env.public_key),
          ("X-Secret-Key", .str env.secret_key)] kvs := by
      simp [build_headers, hvar]
    have hl1 : (build_headers env).lookup "X-Public-Key" = some bv := by
      rw [hbh]; exact lookup_dict_update_mem kvs _ _ bv hnd hpb
    have hl2 : (build_headers env).lookup "X-Secret-Key" = some sv := by
      rw [hbh]; exact lookup_dict_update_mem kvs _ _ sv hnd hps
    have hmc : missing_credentials env = false := by
      simp [missing_credentials, header_get_truthy, hl1, hl2, hjb, hjs]
    refine ⟨hmc, ?_⟩
    intro args rows h1 hout
    simp [extact.main, h1, hmc, hout]
  · intro env kvs v h1 hvar hnd hor hjv args fetch w
    have hbh : build_headers env =
        dict_update [("X-Public-Key", .str env.public_key),
          ("X-Secret-Key", .str env.secret_key)] kvs := by
      simp [build_headers, hvar]
    have hmc : missing_credentials env = true := by
      rcases hor with hv | hv
      · have hl : (build_headers env).lookup "X-Public-Key" = some v := by
          rw [hbh]; exact lookup_dict_update_mem kvs _ _ v hnd hv
        simp [missing_credentials, header_get_truthy, hl, hjv]
      · have hl : (build_headers env).lookup "X-Secret-Key" = some v := by
          rw [hbh]; exact lookup_dict_update_mem kvs _ _ v hnd hv
        simp [missing_credentials, header_get_truthy, hl, hjv]
    simp [extact.main, h1, hmc]

/-- Witness for C10: extra headers supplying both credentials with the key
environment variables empty, and an extra header blanking the public key. -/
theorem C10_credentials_checked_after_merge_witness :
    missing_credentials ⟨"u", "", "",
      .parsed (.obj [("X-Public-Key", .str "a"), ("X-Secret-Key", .str "b")])⟩ =
      false ∧
    extact.main ⟨"u", "p", "s", .parsed (.obj [("X-Public-Key", .str "")])⟩
        ⟨"assets", none, 200, none, false⟩ (.ok []) .ok =
      ⟨1, [err_line "Missing REFTAB_PUBLIC_KEY or REFTAB_SECRET_KEY"], none,
        false⟩ :=
  ⟨(C10_credentials_checked_after_merge.1
      ⟨"u", "", "", .parsed (.obj [("X-Public-Key", .str "a"),
        ("X-Secret-Key", .str "b")])⟩
      [("X-Public-Key", .str "a"), ("X-Secret-Key", .str "b")]
      (.str "a") (.str "b") rfl (by decide) rfl (by decide) rfl (by decide)).1,
   C10_credentials_checked_after_merge.2
      ⟨"u", "p", "s", .parsed (.obj [("X-Public-Key", .str "")])⟩
      [("X-Public-Key", .str "")] (.str "") (by decide) rfl (by decide)
      (Or.inl rfl) (by decide) ⟨"assets", none, 200, none, false⟩ (.ok []) .ok⟩
